import Mathlib

/-!
Verification of the scoped transaction-isolation helper specified for
pytest-green-light.  The repository's visible source
(src/examples/fastapi_example.py) only contains call sites of
`async_db_transaction`; the helper itself is modelled from spec.md
(sections 3, 4.1, 7, 8): a session borrows a database, a scope pushes a
snapshot on entry and, depending on its `rollback` flag, restores that
snapshot or takes no action on exit.
-/

/-- A database row: the non-key columns of the example's `User` model. -/
structure Row where
  name : String
  email : String
deriving DecidableEq, Repr

/-- The database state visible through a session: an association list from
primary key to row. -/
abbrev DB := List (Nat × Row)

/-- Look a key up in the database. -/
def lookupRow : DB → Nat → Option Row
  | [], _ => none
  | (k, r) :: rest, q => if q = k then some r else lookupRow rest q

/-- Insert or update the row stored at a key. -/
def setRow (db : DB) (k : Nat) (r : Row) : DB :=
  (k, r) :: db.filter (fun kv => kv.1 ≠ k)

/-- Delete the row stored at a key. -/
def delRow (db : DB) (k : Nat) : DB :=
  db.filter (fun kv => kv.1 ≠ k)

/-- Modelled from the spec: a staged session operation (the caller's
inserts, updates and deletes, staged by `session.add`-style calls until the
next commit). -/
inductive Op where
  | ins (k : Nat) (r : Row)
  | upd (k : Nat) (r : Row)
  | del (k : Nat)
deriving DecidableEq, Repr

/-- Apply one staged operation to the database. -/
def applyOp (db : DB) : Op → DB
  | .ins k r => setRow db k r
  | .upd k r => setRow db k r
  | .del k => delRow db k

/-- Apply a list of staged operations in order. -/
def applyOps (db : DB) (ops : List Op) : DB :=
  ops.foldl applyOp db

/-- Modelled from the spec (section 7): the helper's own error kinds.
`transactionStateError` signals a nested scope requested with no outer
transaction; `persistenceError` wraps failures of the external session
layer (not further modelled, the external collaborator is out of scope). -/
inductive TxError where
  | transactionStateError
  | persistenceError
deriving DecidableEq, Repr

/-- Modelled from the spec (section 3): a session, the external entity the
helper borrows.  `db` is the state queries see, `pending` the staged but
uncommitted operations, `txActive` whether an outer transaction is active,
`saved` the stack of snapshots captured at scope entries (savepoint or
transaction start), `live` whether the handle is still usable (the helper
never closes it). -/
structure Session where
  db : DB
  pending : List Op
  txActive : Bool
  saved : List (DB × List Op)
  live : Bool
deriving DecidableEq, Repr

/-- A freshly opened session on an empty database. -/
def freshSession : Session :=
  { db := [], pending := [], txActive := false, saved := [], live := true }

/-- The `session.get(User, k)` query: look the key up in the committed
visible state. -/
def getRow (s : Session) (k : Nat) : Option Row :=
  lookupRow s.db k

/-- The `session.execute(select(User).where(...))` query: all rows of the
visible state satisfying a predicate. -/
def execQuery (p : Row → Bool) (s : Session) : List Row :=
  (s.db.filter (fun kv => p kv.2)).map (fun kv => kv.2)

/-- Modelled from the spec (section 4.1, step 2): one step of the caller's
block inside a scope — stage an insert/update/delete, commit the staged
operations, or raise an exception (carrying payload `e`). -/
inductive Step where
  | ins (k : Nat) (r : Row)
  | upd (k : Nat) (r : Row)
  | del (k : Nat)
  | commit
  | raiseExc (e : Nat)
deriving DecidableEq, Repr

/-- Run the caller's block over the data part of the session: returns the
final visible state, the remaining staged operations, and the exception
raised by the block, if any (execution stops at the first raise). -/
def runOps : DB → List Op → List Step → DB × List Op × Option Nat
  | db, pend, [] => (db, pend, none)
  | db, pend, Step.ins k r :: rest => runOps db (pend ++ [Op.ins k r]) rest
  | db, pend, Step.upd k r :: rest => runOps db (pend ++ [Op.upd k r]) rest
  | db, pend, Step.del k :: rest => runOps db (pend ++ [Op.del k]) rest
  | db, pend, Step.commit :: rest => runOps (applyOps db pend) [] rest
  | db, pend, Step.raiseExc e :: _ => (db, pend, some e)

/-- Run the caller's block on a session.  Body steps touch only the data
part (`db`, `pending`) of the session; the scope bookkeeping (`saved`,
`txActive`, `live`) is untouched by the caller's work. -/
def runBody (s : Session) (steps : List Step) : Session × Option Nat :=
  let r := runOps s.db s.pending steps
  ({ s with db := r.1, pending := r.2.1 }, r.2.2)

/-- Modelled from the spec (section 4.1, step 1 and section 7): scope
entry.  With `nested = false`, begin a top-level transaction (no-op if one
is already active) and capture a snapshot; with `nested = true`, require an
outer active transaction — failing fast with `TransactionStateError`
otherwise, as section 9 directs — and capture a savepoint snapshot. -/
def enterScope (s : Session) (nested : Bool) : Except TxError Session :=
  if nested then
    if s.txActive then
      Except.ok { s with saved := (s.db, s.pending) :: s.saved }
    else
      Except.error TxError.transactionStateError
  else
    Except.ok { s with txActive := true, saved := (s.db, s.pending) :: s.saved }

/-- Modelled from the spec (section 4.1, step 3): scope exit.  With
`rollback = true`, unconditionally roll back to the snapshot captured at
entry, discarding every change made during the scope (commits included);
rolling back a top-level scope ends the outer transaction, rolling back to
a savepoint keeps it active.  With `rollback = false`, take no rollback
action: only the scope's snapshot is discarded. -/
def exitScope (nested rollback : Bool) (s : Session) : Session :=
  match s.saved with
  | [] => s
  | snap :: rest =>
    if rollback then
      { s with db := snap.1, pending := snap.2, saved := rest,
               txActive := if nested then s.txActive else false }
    else
      { s with saved := rest }

/-- Modelled from the spec (section 4.1): the whole scope — enter, run the
caller's block, apply the exit policy on every exit path (also when the
block raised), and hand the caller's exception back unchanged. -/
def withScope (s : Session) (nested rollback : Bool) (steps : List Step) :
    Except TxError (Session × Option Nat) :=
  match enterScope s nested with
  | Except.error e => Except.error e
  | Except.ok s1 =>
    let r := runBody s1 steps
    Except.ok (exitScope nested rollback r.1, r.2)

/-- Modelled from the spec: the default flag values of the contract
`enter(session, nested=False, rollback=True)`. -/
def defaultNested : Bool := false

/-- Modelled from the spec: the default rollback flag of the contract
`enter(session, nested=False, rollback=True)`. -/
def defaultRollback : Bool := true

/-- Modelled from the spec: `async_db_transaction(session)` called with
only a session uses the default flags. -/
def asyncDbTransaction (s : Session) (steps : List Step) :
    Except TxError (Session × Option Nat) :=
  withScope s defaultNested defaultRollback steps

/-- A world of sessions, to state the frame property: the helper acts on
one session and touches no other. -/
abbrev World := Nat → Session

/-- Run a scope against session `i` of a world; every other session of the
world is left as it was. -/
def worldScope (w : World) (i : Nat) (nested rollback : Bool)
    (steps : List Step) : Except TxError World :=
  match withScope (w i) nested rollback steps with
  | Except.error e => Except.error e
  | Except.ok out => Except.ok (fun j => if j = i then out.1 else w j)

/-- The row inserted as user 1 in the example tests. -/
def aliceRow : Row := { name := "Alice", email := "alice@example.com" }

/-- The row inserted as user 2 in the example tests. -/
def bobRow : Row := { name := "Bob", email := "bob@example.com" }

/-- The session obtained by entering a fresh session's top-level scope. -/
def enteredFresh : Session :=
  { db := [], pending := [], txActive := true, saved := [([], [])], live := true }

/-- A session that already holds a row before any scope is entered. -/
def seededSession : Session :=
  { db := [(5, bobRow)], pending := [], txActive := false, saved := [], live := true }

/-- The seeded session after a `rollback=False` scope inserted and
committed user 1. -/
def c2After : Session :=
  { db := [(1, aliceRow), (5, bobRow)], pending := [], txActive := true,
    saved := [], live := true }

/-- The session inside the inner savepoint scope of the nesting scenario:
user 1 committed by the outer block, both snapshots on the stack. -/
def c7Inner : Session :=
  { db := [(1, aliceRow)], pending := [], txActive := true,
    saved := [([(1, aliceRow)], []), ([], [])], live := true }

/-- A world where every session is fresh. -/
def c9World : World := fun _ => freshSession

/-- The world after running a scope against session 0 of `c9World`. -/
def c9WorldAfter : World := fun j => if j = 0 then freshSession else c9World j

/-- Scope entry only pushes the snapshot and activates the transaction: the
data part, and the liveness of the handle, are unchanged. -/
theorem enterScope_ok (s : Session) (nested : Bool) (s1 : Session)
    (h : enterScope s nested = Except.ok s1) :
    s1.db = s.db ∧ s1.pending = s.pending ∧ s1.txActive = true ∧
    s1.saved = (s.db, s.pending) :: s.saved ∧ s1.live = s.live := by
  cases nested with
  | false =>
    simp only [enterScope, if_neg, Bool.false_eq_true, ite_false, Except.ok.injEq] at h
    subst h
    simp
  | true =>
    cases htx : s.txActive with
    | false => simp [enterScope, htx] at h
    | true =>
      simp only [enterScope, htx, if_true, ite_true, Except.ok.injEq] at h
      subst h
      simp [htx]

/-- The caller's block never touches the snapshot stack. -/
theorem runBody_saved (s : Session) (steps : List Step) :
    (runBody s steps).1.saved = s.saved := rfl

/-- The caller's block never deactivates the outer transaction. -/
theorem runBody_txActive (s : Session) (steps : List Step) :
    (runBody s steps).1.txActive = s.txActive := rfl

/-- The caller's block never closes the session. -/
theorem runBody_live (s : Session) (steps : List Step) :
    (runBody s steps).1.live = s.live := rfl

/-- The visible state after the block depends only on the data part. -/
theorem runBody_db (s : Session) (steps : List Step) :
    (runBody s steps).1.db = (runOps s.db s.pending steps).1 := rfl

/-- The staged operations after the block depend only on the data part. -/
theorem runBody_pending (s : Session) (steps : List Step) :
    (runBody s steps).1.pending = (runOps s.db s.pending steps).2.1 := rfl

/-- The exception reported by the block depends only on the data part. -/
theorem runBody_exc (s : Session) (steps : List Step) :
    (runBody s steps).2 = (runOps s.db s.pending steps).2.2 := rfl

/-- Exiting with the rollback policy restores the snapshot on top of the
stack. -/
theorem exitScope_rollback_of_saved (nested : Bool) (s : Session)
    (snap : DB × List Op) (rest : List (DB × List Op)) (h : s.saved = snap :: rest) :
    exitScope nested true s =
      { s with db := snap.1, pending := snap.2, saved := rest,
               txActive := if nested then s.txActive else false } := by
  simp [exitScope, h]

/-- Exiting without the rollback policy only discards the snapshot. -/
theorem exitScope_noRollback_of_saved (nested : Bool) (s : Session)
    (snap : DB × List Op) (rest : List (DB × List Op)) (h : s.saved = snap :: rest) :
    exitScope nested false s = { s with saved := rest } := by
  simp [exitScope, h]

/-- Exiting a scope pops exactly one snapshot, under either policy. -/
theorem exitScope_saved_of_saved (nested rb : Bool) (s : Session)
    (snap : DB × List Op) (rest : List (DB × List Op)) (h : s.saved = snap :: rest) :
    (exitScope nested rb s).saved = rest := by
  unfold exitScope
  rw [h]
  cases rb <;> simp

/-- Exiting a scope never closes the session. -/
theorem exitScope_live (nested rb : Bool) (s : Session) :
    (exitScope nested rb s).live = s.live := by
  unfold exitScope
  cases s.saved with
  | nil => rfl
  | cons snap rest => cases rb <;> simp

/-- Core restoration fact: a scope exited under the rollback policy hands
back the session exactly as captured at entry on its data part, with the
snapshot stack and liveness of the entry state. -/
theorem withScope_rollback_restores (s : Session) (nested : Bool)
    (steps : List Step) (s' : Session) (exc : Option Nat)
    (h : withScope s nested true steps = Except.ok (s', exc)) :
    s'.db = s.db ∧ s'.pending = s.pending ∧ s'.saved = s.saved ∧ s'.live = s.live := by
  unfold withScope at h
  cases he : enterScope s nested with
  | error e => rw [he] at h; simp at h
  | ok s1 =>
    rw [he] at h
    simp only [Except.ok.injEq, Prod.mk.injEq] at h
    obtain ⟨h1, -⟩ := h
    obtain ⟨hdb, hpend, htx, hsaved, hlive⟩ := enterScope_ok s nested s1 he
    have hsv : (runBody s1 steps).1.saved = (s.db, s.pending) :: s.saved := by
      rw [runBody_saved, hsaved]
    rw [exitScope_rollback_of_saved nested (runBody s1 steps).1 (s.db, s.pending)
      s.saved hsv] at h1
    subst h1
    refine ⟨rfl, rfl, rfl, ?_⟩
    show (runBody s1 steps).1.live = s.live
    rw [runBody_live, hlive]

/-- A scope, however configured, never closes the session. -/
theorem withScope_live (s : Session) (nested rollback : Bool)
    (steps : List Step) (s' : Session) (exc : Option Nat)
    (h : withScope s nested rollback steps = Except.ok (s', exc)) :
    s'.live = s.live := by
  unfold withScope at h
  cases he : enterScope s nested with
  | error e => rw [he] at h; simp at h
  | ok s1 =>
    rw [he] at h
    simp only [Except.ok.injEq, Prod.mk.injEq] at h
    obtain ⟨h1, -⟩ := h
    obtain ⟨-, -, -, -, hlive⟩ := enterScope_ok s nested s1 he
    subst h1
    rw [exitScope_live, runBody_live, hlive]

/-- Claim C1: for every sequence of inserts, updates and deletes performed
inside a scope entered with `rollback=True` — including changes the caller
explicitly committed inside the scope — after the scope exits none of those
changes is observable through the same session: both key lookups and
queries return the pre-scope state. -/
theorem c1_rollback_scope_unobservable (s : Session) (nested : Bool)
    (steps : List Step) (s' : Session) (exc : Option Nat)
    (h : withScope s nested true steps = Except.ok (s', exc)) :
    s'.db = s.db ∧ (∀ k, getRow s' k = getRow s k) ∧
    ∀ p, execQuery p s' = execQuery p s := by
  obtain ⟨hdb, -, -, -⟩ := withScope_rollback_restores s nested steps s' exc h
  refine ⟨hdb, fun k => ?_, fun p => ?_⟩
  · rw [getRow, getRow, hdb]
  · rw [execQuery, execQuery, hdb]

/-- Claim C2: for every sequence of body steps inside a scope entered with
`rollback=False`, the post-exit visible state is exactly the state the
caller's block (with its commits) produced — the helper takes no rollback
action on exit, so committed changes remain observable. -/
theorem c2_no_rollback_persists (s : Session) (nested : Bool)
    (steps : List Step) (s' : Session) (exc : Option Nat)
    (h : withScope s nested false steps = Except.ok (s', exc)) :
    s'.db = (runOps s.db s.pending steps).1 ∧
    ∀ k, getRow s' k = lookupRow (runOps s.db s.pending steps).1 k := by
  unfold withScope at h
  cases he : enterScope s nested with
  | error e => rw [he] at h; simp at h
  | ok s1 =>
    rw [he] at h
    simp only [Except.ok.injEq, Prod.mk.injEq] at h
    obtain ⟨h1, -⟩ := h
    obtain ⟨hdb, hpend, -, hsaved, -⟩ := enterScope_ok s nested s1 he
    have hsv : (runBody s1 steps).1.saved = (s.db, s.pending) :: s.saved := by
      rw [runBody_saved, hsaved]
    rw [exitScope_noRollback_of_saved nested (runBody s1 steps).1 (s.db, s.pending)
      s.saved hsv] at h1
    subst h1
    have hdb' : (runBody s1 steps).1.db = (runOps s.db s.pending steps).1 := by
      rw [runBody_db, hdb, hpend]
    refine ⟨hdb', fun k => ?_⟩
    show lookupRow (runBody s1 steps).1.db k = _
    rw [hdb']

/-- Claim C3: entering a scope with `nested=True` while no outer
transaction is active on the session fails fast with
`TransactionStateError` instead of silently promoting to a top-level
transaction. -/
theorem c3_nested_without_outer_fails (s : Session) (rollback : Bool)
    (steps : List Step) (h : s.txActive = false) :
    withScope s true rollback steps = Except.error TxError.transactionStateError := by
  unfold withScope enterScope
  rw [h]
  simp

/-- Claim C4: when the caller's block raises an exception, the helper
first applies the exit policy — restoring the pre-scope state under
`rollback=True` — and then hands the very same exception back; it never
swallows a caller exception. -/
theorem c4_exception_propagates_after_exit_policy (s s1 : Session)
    (nested rollback : Bool) (steps : List Step) (e : Nat)
    (henter : enterScope s nested = Except.ok s1)
    (hraise : (runBody s1 steps).2 = some e) :
    withScope s nested rollback steps =
      Except.ok (exitScope nested rollback (runBody s1 steps).1, some e) ∧
    (rollback = true → (exitScope nested rollback (runBody s1 steps).1).db = s.db) := by
  constructor
  · unfold withScope
    rw [henter]
    show Except.ok (exitScope nested rollback (runBody s1 steps).1, (runBody s1 steps).2) = _
    rw [hraise]
  · intro hr
    subst hr
    obtain ⟨-, -, -, hsaved, -⟩ := enterScope_ok s nested s1 henter
    have hsv : (runBody s1 steps).1.saved = (s.db, s.pending) :: s.saved := by
      rw [runBody_saved, hsaved]
    rw [exitScope_rollback_of_saved nested (runBody s1 steps).1 (s.db, s.pending)
      s.saved hsv]

/-- Exiting an inner scope (under either policy) and later an enclosing
scope with the rollback policy restores the second snapshot down the stack,
whatever the two blocks did in between. -/
theorem double_exit_restores (t : Session) (no ri : Bool)
    (snap1 snap2 : DB × List Op) (rest : List (DB × List Op))
    (steps2 steps3 : List Step) (h : t.saved = snap1 :: snap2 :: rest) :
    (exitScope no true (runBody (exitScope true ri (runBody t steps2).1) steps3).1).db
      = snap2.1 ∧
    (exitScope no true (runBody (exitScope true ri (runBody t steps2).1) steps3).1).pending
      = snap2.2 := by
  have h1 : (runBody t steps2).1.saved = snap1 :: snap2 :: rest := by
    rw [runBody_saved, h]
  have h2 : (exitScope true ri (runBody t steps2).1).saved = snap2 :: rest :=
    exitScope_saved_of_saved true ri _ snap1 (snap2 :: rest) h1
  have h3 : (runBody (exitScope true ri (runBody t steps2).1) steps3).1.saved
      = snap2 :: rest := by
    rw [runBody_saved, h2]
  rw [exitScope_rollback_of_saved no _ snap2 rest h3]
  exact ⟨rfl, rfl⟩

/-- Claim C7: scope nesting composes — after an outer scope with
`rollback=True` containing an inner scope (whose own rollback flag is
irrelevant to the outer rollback), everything both scopes did is rolled
back when the outer scope exits: the inner scope always enters
successfully, and the session queries revert to the outer pre-scope state,
so any commit of the inner block is undone by the enclosing rollback. -/
theorem c7_nesting_composes (s s1 : Session) (no ri : Bool)
    (steps1 steps2 steps3 : List Step)
    (h : enterScope s no = Except.ok s1) :
    ∃ s2, enterScope (runBody s1 steps1).1 true = Except.ok s2 ∧
      (exitScope no true
        (runBody (exitScope true ri (runBody s2 steps2).1) steps3).1).db = s.db ∧
      ∀ k, getRow (exitScope no true
        (runBody (exitScope true ri (runBody s2 steps2).1) steps3).1) k = getRow s k := by
  obtain ⟨hdb, hpend, htx, hsaved, hlive⟩ := enterScope_ok s no s1 h
  have hAtx : (runBody s1 steps1).1.txActive = true := by
    rw [runBody_txActive, htx]
  have hAsaved : (runBody s1 steps1).1.saved = (s.db, s.pending) :: s.saved := by
    rw [runBody_saved, hsaved]
  have henter2 : ∃ s2, enterScope (runBody s1 steps1).1 true = Except.ok s2 := by
    unfold enterScope
    rw [hAtx]
    simp
  obtain ⟨s2, hs2⟩ := henter2
  obtain ⟨-, -, -, hs2saved, -⟩ := enterScope_ok _ true s2 hs2
  have hs2saved' : s2.saved =
      ((runBody s1 steps1).1.db, (runBody s1 steps1).1.pending)
        :: (s.db, s.pending) :: s.saved := by
    rw [hs2saved, hAsaved]
  have hfin := double_exit_restores s2 no ri _ (s.db, s.pending) s.saved
    steps2 steps3 hs2saved'
  refine ⟨s2, hs2, hfin.1, fun k => ?_⟩
  show getRow (exitScope no true (runBody (exitScope true ri (runBody s2 steps2).1) steps3).1) k
      = getRow s k
  rw [getRow, getRow, hfin.1]

/-- Claim C8: a scope entered with only a session uses the defaults
`nested=False`, `rollback=True`, so it behaves exactly as the explicit
call and rolls back on exit. -/
theorem c8_default_flags (s : Session) (steps : List Step) :
    asyncDbTransaction s steps = withScope s false true steps ∧
    ∀ s' exc, asyncDbTransaction s steps = Except.ok (s', exc) →
      s'.db = s.db ∧ ∀ k, getRow s' k = getRow s k := by
  refine ⟨rfl, fun s' exc h => ?_⟩
  obtain ⟨hdb, -, -, -⟩ := withScope_rollback_restores s false steps s' exc h
  refine ⟨hdb, fun k => ?_⟩
  rw [getRow, getRow, hdb]

/-- Claim C9: on every exit path the helper never closes the session — the
handle's liveness is untouched and it remains usable for queries — and it
mutates only the session it was given: every other session of the world is
left exactly as it was. -/
theorem c9_session_not_closed_frame (w : World) (i : Nat)
    (nested rollback : Bool) (steps : List Step) :
    (∀ s' exc, withScope (w i) nested rollback steps = Except.ok (s', exc) →
        s'.live = (w i).live) ∧
    (∀ w', worldScope w i nested rollback steps = Except.ok w' →
        ∀ j, j ≠ i → w' j = w j) := by
  constructor
  · intro s' exc h
    exact withScope_live (w i) nested rollback steps s' exc h
  · intro w' h j hj
    unfold worldScope at h
    cases hws : withScope (w i) nested rollback steps with
    | error e => rw [hws] at h; simp at h
    | ok out =>
      rw [hws] at h
      simp only [Except.ok.injEq] at h
      subst h
      simp [hj]

/-- Committing right after staging an insert leaves the inserted row at its
key in the visible state. -/
theorem runBody_ins_commit_db (t : Session) (k : Nat) (r : Row) :
    (runBody t [Step.ins k r, Step.commit]).1.db
      = setRow (applyOps t.db t.pending) k r := by
  show (runOps t.db t.pending [Step.ins k r, Step.commit]).1 = _
  simp [runOps, applyOps, List.foldl_append, applyOp]

/-- Looking up the key just written finds the row just written. -/
theorem lookupRow_setRow (db : DB) (k : Nat) (r : Row) :
    lookupRow (setRow db k r) k = some r := by
  simp [setRow, lookupRow]

/-- Claim C10: while a `rollback=True` scope (indeed any scope) is still
open, changes made and committed inside it are observable through the same
session — after staging an insert and committing, a lookup of the inserted
key returns the row and every query whose predicate accepts the row
includes it. -/
theorem c10_committed_visible_inside_scope (s s1 : Session) (nested : Bool)
    (k : Nat) (r : Row) (h : enterScope s nested = Except.ok s1) :
    (runBody s1 [Step.ins k r, Step.commit]).1.saved = (s.db, s.pending) :: s.saved ∧
    getRow (runBody s1 [Step.ins k r, Step.commit]).1 k = some r ∧
    ∀ p, p r = true → r ∈ execQuery p (runBody s1 [Step.ins k r, Step.commit]).1 := by
  obtain ⟨-, -, -, hsaved, -⟩ := enterScope_ok s nested s1 h
  have hdb := runBody_ins_commit_db s1 k r
  refine ⟨?_, ?_, ?_⟩
  · rw [runBody_saved, hsaved]
  · rw [getRow, hdb]
    exact lookupRow_setRow _ k r
  · intro p hp
    rw [execQuery, hdb, setRow]
    simp [List.filter_cons, hp]

/-- Claim C5: inserting a row with id 1 inside a `rollback=True` scope,
committing, and exiting the scope results in `get(id=1)` on the same
session returning none. -/
theorem c5_insert_commit_rolled_back :
    (withScope freshSession false true [Step.ins 1 aliceRow, Step.commit]).map
      (fun out => getRow out.1 1) = Except.ok none := by
  rfl

/-- Claim C6: inserting id 1 inside a `rollback=False` scope, committing
and exiting, then inserting id 2 inside a nested `rollback=True` scope,
committing and exiting the inner scope, leaves `get(id=1)` present and
`get(id=2)` none on the same session. -/
theorem c6_nested_scope_scenario :
    (do
      let out1 ← withScope freshSession false false [Step.ins 1 aliceRow, Step.commit]
      let out2 ← withScope out1.1 true true [Step.ins 2 bobRow, Step.commit]
      pure (getRow out2.1 1, getRow out2.1 2)) =
      Except.ok (some aliceRow, none) := by
  rfl

/-- Witness for C1: rolling back a scope that inserted and committed user 1
on a seeded session leaves the seeded state intact. -/
theorem c1_witness :
    withScope seededSession false true [Step.ins 1 aliceRow, Step.commit] =
      Except.ok (seededSession, none) ∧
    seededSession.db = seededSession.db ∧
    getRow seededSession 1 = getRow seededSession 1 := by
  have h := c1_rollback_scope_unobservable seededSession false
    [Step.ins 1 aliceRow, Step.commit] seededSession none rfl
  exact ⟨rfl, h.1, h.2.1 1⟩

/-- Witness for C2: a `rollback=False` scope that inserted and committed
user 1 leaves that row visible after exit. -/
theorem c2_witness :
    withScope seededSession false false [Step.ins 1 aliceRow, Step.commit] =
      Except.ok (c2After, none) ∧
    c2After.db =
      (runOps seededSession.db seededSession.pending
        [Step.ins 1 aliceRow, Step.commit]).1 ∧
    getRow c2After 1 =
      lookupRow (runOps seededSession.db seededSession.pending
        [Step.ins 1 aliceRow, Step.commit]).1 1 := by
  have h := c2_no_rollback_persists seededSession false
    [Step.ins 1 aliceRow, Step.commit] c2After none rfl
  exact ⟨rfl, h.1, h.2 1⟩

/-- Witness for C3: a fresh session has no active outer transaction, and a
nested scope on it fails fast. -/
theorem c3_witness :
    freshSession.txActive = false ∧
    withScope freshSession true true [] =
      Except.error TxError.transactionStateError :=
  ⟨rfl, c3_nested_without_outer_fails freshSession true [] rfl⟩

/-- Witness for C4: a block that raises exception 7 after an uncommitted
insert still sees the rollback applied, and exception 7 comes back. -/
theorem c4_witness :
    enterScope freshSession false = Except.ok enteredFresh ∧
    (runBody enteredFresh [Step.ins 1 aliceRow, Step.raiseExc 7]).2 = some 7 ∧
    withScope freshSession false true [Step.ins 1 aliceRow, Step.raiseExc 7] =
      Except.ok (exitScope false true
        (runBody enteredFresh [Step.ins 1 aliceRow, Step.raiseExc 7]).1, some 7) ∧
    (exitScope false true
      (runBody enteredFresh [Step.ins 1 aliceRow, Step.raiseExc 7]).1).db =
      freshSession.db := by
  have h := c4_exception_propagates_after_exit_policy freshSession enteredFresh
    false true [Step.ins 1 aliceRow, Step.raiseExc 7] 7 rfl rfl
  exact ⟨rfl, rfl, h.1, h.2 rfl⟩

/-- Witness for C7: the concrete nesting scenario of the example — outer
scope commits user 1, inner savepoint scope commits user 2 — rolls back to
the empty database once the outer rollback scope exits. -/
theorem c7_witness :
    enterScope freshSession false = Except.ok enteredFresh ∧
    (exitScope false true
      (runBody (exitScope true true
        (runBody c7Inner [Step.ins 2 bobRow, Step.commit]).1) []).1).db =
      freshSession.db := by
  obtain ⟨s2, hs2, hdb, -⟩ := c7_nesting_composes freshSession enteredFresh
    false true [Step.ins 1 aliceRow, Step.commit] [Step.ins 2 bobRow, Step.commit]
    [] rfl
  have h2 : enterScope (runBody enteredFresh [Step.ins 1 aliceRow, Step.commit]).1
      true = Except.ok c7Inner := rfl
  rw [h2] at hs2
  injection hs2 with he
  subst he
  exact ⟨rfl, hdb⟩

/-- Witness for C8: the default entry on a fresh session equals the
explicit `nested=False, rollback=True` call and rolls the insert back. -/
theorem c8_witness :
    asyncDbTransaction freshSession [Step.ins 1 aliceRow, Step.commit] =
      Except.ok (freshSession, none) ∧
    freshSession.db = freshSession.db ∧
    getRow freshSession 1 = getRow freshSession 1 := by
  have h := c8_default_flags freshSession [Step.ins 1 aliceRow, Step.commit]
  have h2 := h.2 freshSession none rfl
  exact ⟨rfl, h2.1, h2.2 1⟩

/-- Witness for C9: running a scope against session 0 of an all-fresh
world keeps session 0 live and leaves session 1 untouched. -/
theorem c9_witness :
    freshSession.live = (c9World 0).live ∧ c9WorldAfter 1 = c9World 1 := by
  have h := c9_session_not_closed_frame c9World 0 false true
    [Step.ins 1 aliceRow, Step.commit]
  exact ⟨h.1 freshSession none rfl, h.2 c9WorldAfter rfl 1 (by decide)⟩

/-- Witness for C10: inside the still-open fresh scope, the committed user
1 is visible through both lookups and queries. -/
theorem c10_witness :
    enterScope freshSession false = Except.ok enteredFresh ∧
    getRow (runBody enteredFresh [Step.ins 1 aliceRow, Step.commit]).1 1 =
      some aliceRow ∧
    aliceRow ∈ execQuery (fun x => x.name == "Alice")
      (runBody enteredFresh [Step.ins 1 aliceRow, Step.commit]).1 := by
  have h := c10_committed_visible_inside_scope freshSession enteredFresh false
    1 aliceRow rfl
  exact ⟨rfl, h.2.1, h.2.2 (fun x => x.name == "Alice") (by decide)⟩
